import Mathlib

/-!
Shallow embedding of the `grid_print` library (src/lib.rs).

The Rust code renders a 2D array of colored-text cells as a box-drawn grid.
Panics (index out of bounds, usize underflow) are modelled by `Option`:
`none` means the render aborts fatally. The output sink is modelled as the
list of (character, optional color) writes the renderer would emit.
-/

namespace GridPrint

/-- Opaque color tag, mirroring `termcolor::Color`. The renderer never
inspects color values, only propagates them. -/
inductive Color where
  | black | blue | green | red | cyan | magenta | yellow | white
  | ansi256 (n : Nat)
  | rgb (r g b : Nat)
deriving DecidableEq

/-- `ColoredChar`: one display character plus an optional color. -/
structure ColoredChar where
  char : Char
  color : Option Color
deriving DecidableEq

/-- `ColoredChar::new`. -/
def ColoredChar.new (c : Char) : ColoredChar := ⟨c, none⟩

/-- `ColoredChar::apply_default_color`: assign `d` only if no color is set. -/
def ColoredChar.apply_default_color (ch : ColoredChar) (d : Option Color) : ColoredChar :=
  if ch.color.isNone then { ch with color := d } else ch

/-- `ColoredString`: an ordered sequence of colored characters. -/
structure ColoredString where
  chars : List ColoredChar
deriving DecidableEq

/-- `ColoredString::new`. -/
def ColoredString.empty : ColoredString := ⟨[]⟩

/-- `ColoredString::from`: every character uncolored. -/
def ColoredString.fromStr (s : String) : ColoredString :=
  ⟨s.toList.map ColoredChar.new⟩

/-- `ColoredString::push_char`. -/
def ColoredString.push_char (s : ColoredString) (c : Char) : ColoredString :=
  ⟨s.chars ++ [ColoredChar.new c]⟩

/-- `ColoredString::push_char_c`. -/
def ColoredString.push_char_c (s : ColoredString) (c : Char) (col : Option Color) : ColoredString :=
  ⟨s.chars ++ [⟨c, col⟩]⟩

/-- `ColoredString::push_char_rep`: push `n` copies of an uncolored char. -/
def ColoredString.push_char_rep (s : ColoredString) (c : Char) (n : Nat) : ColoredString :=
  ⟨s.chars ++ List.replicate n (ColoredChar.new c)⟩

/-- `ColoredString::push_char_rep_c`: push `n` copies of a colored char. -/
def ColoredString.push_char_rep_c (s : ColoredString) (c : Char) (col : Option Color) (n : Nat) :
    ColoredString :=
  ⟨s.chars ++ List.replicate n ⟨c, col⟩⟩

/-- `ColoredString::push_colored_string`: element-wise copy. -/
def ColoredString.push_colored_string (s t : ColoredString) : ColoredString :=
  ⟨s.chars ++ t.chars⟩

/-- `ColoredString::apply_default_color`: fill every unset color with `d`. -/
def ColoredString.apply_default_color (s : ColoredString) (d : Option Color) : ColoredString :=
  ⟨s.chars.map (fun ch => ch.apply_default_color d)⟩

/-- The stream of (character, color) writes `ColoredString::print` issues to
the sink: one set-color + write per character, in order. -/
def ColoredString.writes (s : ColoredString) : List (Char × Option Color) :=
  s.chars.map (fun ch => (ch.char, ch.color))

/-- Rust `usize` subtraction: panics (here `none`) on underflow. -/
def checkedSub (a b : Nat) : Option Nat :=
  if b ≤ a then some (a - b) else none

/-- `Grid`: the composite render target (column-major cells). -/
structure Grid where
  x_labels : List ColoredString
  y_labels : List ColoredString
  static_column_width : Bool
  draw_x_labels : Bool
  draw_y_labels : Bool
  grid : List (List ColoredString)
  line_color : Option Color
  x_label_color : Option Color
  y_label_color : Option Color
  cell_color : Option Color
deriving DecidableEq

/-- `Grid::new`. -/
def Grid.new : Grid :=
  { x_labels := []
    y_labels := []
    static_column_width := false
    draw_x_labels := true
    draw_y_labels := true
    grid := []
    line_color := none
    x_label_color := none
    y_label_color := none
    cell_color := none }

/-- `Grid::set_line_color`. -/
def Grid.set_line_color (g : Grid) (c : Color) : Grid := { g with line_color := some c }

/-- `Grid::set_x_label_color`. -/
def Grid.set_x_label_color (g : Grid) (c : Color) : Grid := { g with x_label_color := some c }

/-- `Grid::set_y_label_color`. -/
def Grid.set_y_label_color (g : Grid) (c : Color) : Grid := { g with y_label_color := some c }

/-- `Grid::set_cell_color`. -/
def Grid.set_cell_color (g : Grid) (c : Color) : Grid := { g with cell_color := some c }

/-- `Grid::set_static_column_width`. -/
def Grid.set_static_column_width (g : Grid) (b : Bool) : Grid :=
  { g with static_column_width := b }

/-- `Grid::set_draw_x_labels`. -/
def Grid.set_draw_x_labels (g : Grid) (b : Bool) : Grid := { g with draw_x_labels := b }

/-- `Grid::set_draw_y_labels`. -/
def Grid.set_draw_y_labels (g : Grid) (b : Bool) : Grid := { g with draw_y_labels := b }

/-- `Grid::set_x_labels`: applies the current x-label default color to each
label at attach time, then stores them. -/
def Grid.set_x_labels (g : Grid) (labels : List ColoredString) : Grid :=
  { g with x_labels := labels.map (fun s => s.apply_default_color g.x_label_color) }

/-- `Grid::set_y_labels`. -/
def Grid.set_y_labels (g : Grid) (labels : List ColoredString) : Grid :=
  { g with y_labels := labels.map (fun s => s.apply_default_color g.y_label_color) }

/-- `Grid::set_grid`: applies the current cell default color to every cell. -/
def Grid.set_grid (g : Grid) (cells : List (List ColoredString)) : Grid :=
  { g with grid := cells.map (fun col => col.map (fun s => s.apply_default_color g.cell_color)) }

/-- Width of one column (`column_widths[i]` in `Grid::print`): max cell length
in the column, then the x-label length if x-labels are drawn and one exists. -/
def Grid.columnWidth (g : Grid) (i : Nat) (col : List ColoredString) : Nat :=
  let base := List.foldl (fun w c => if c.chars.length > w then c.chars.length else w) 0 col
  match g.x_labels[i]? with
  | some l => if g.draw_x_labels ∧ l.chars.length > base then l.chars.length else base
  | none => base

/-- The `column_widths` vector of `Grid::print`. -/
def Grid.columnWidths (g : Grid) : List Nat :=
  g.grid.enum.map (fun p => g.columnWidth p.1 p.2)

/-- `largest_width` in `Grid::print`. -/
def Grid.largestWidth (g : Grid) : Nat :=
  List.foldl (fun w n => if n > w then n else w) 0 g.columnWidths

/-- `label_width` in `Grid::print`: max y-label length (0 if none). -/
def Grid.labelWidth (g : Grid) : Nat :=
  List.foldl (fun w s => if s.chars.length > w then s.chars.length else w) 0 g.y_labels

/-- The effective width `Grid::print` computes for column `i` at every drawing
site: the global maximum if `static_column_width`, else `column_widths[i]`. -/
def Grid.usedWidth (g : Grid) (i : Nat) : Nat :=
  if g.static_column_width then g.largestWidth else g.columnWidths.getD i 0

/-- The shared centering step of `Grid::print`: `diff = width + 2 - len`
(usize subtraction), left pad `diff / 2`, right pad `diff / 2` when `diff` is
even and `diff / 2 + 1` when odd; pads are uncolored spaces. -/
def ColoredString.pushCentered (out : ColoredString) (width : Nat) (content : ColoredString) :
    Option ColoredString := do
  let diff ← checkedSub (width + 2) content.chars.length
  let pad_a := diff / 2
  let pad_b := if diff % 2 = 0 then pad_a else pad_a + 1
  return ((out.push_char_rep ' ' pad_a).push_colored_string content).push_char_rep ' ' pad_b

/-- One x-label field of the top label row: centered label then a divider. -/
def Grid.xLabelCell (g : Grid) (i : Nat) (out : ColoredString) : Option ColoredString := do
  let l ← g.x_labels[i]?
  let out ← out.pushCentered (g.usedWidth i) l
  return out.push_char_c '│' g.line_color

/-- Stage 1 of `Grid::print`: the top border (with the x-label row and the
heavy transition line when x-labels are drawn). -/
def Grid.topStage (g : Grid) (out : ColoredString) : Option ColoredString :=
  if g.draw_x_labels then do
    let out := if g.draw_y_labels then out.push_char_rep ' ' (g.labelWidth + 1) else out
    let out := out.push_char_c '│' g.line_color
    let out ← (List.range g.grid.length).foldlM (fun o i => g.xLabelCell i o) out
    let out := out.push_char '\n'
    let out :=
      if g.draw_y_labels then
        (out.push_char_rep_c '─' g.line_color (g.labelWidth + 1)).push_char_c '╆' g.line_color
      else out.push_char_c '┢' g.line_color
    let out := (List.range g.grid.length).foldl (fun o i =>
      let o := o.push_char_rep_c '━' g.line_color (g.usedWidth i + 2)
      if i = g.grid.length - 1 then o.push_char_c '┪' g.line_color
      else o.push_char_c '┿' g.line_color) out
    return out.push_char '\n'
  else
    let out :=
      if g.draw_y_labels then
        (out.push_char_rep_c '─' g.line_color (g.labelWidth + 1)).push_char_c '┲' g.line_color
      else out.push_char_c '┏' g.line_color
    let out := (List.range g.grid.length).foldl (fun o i =>
      let o := o.push_char_rep_c '━' g.line_color (g.usedWidth i + 2)
      if i = g.grid.length - 1 then o.push_char_c '┓' g.line_color
      else o.push_char_c '┯' g.line_color) out
    some (out.push_char '\n')

/-- The y-label gutter of one row: `label_width - len` spaces (usize
subtraction), the label, one space. Nothing when y-labels are off. -/
def Grid.rowGutter (g : Grid) (y : Nat) (out : ColoredString) : Option ColoredString :=
  if g.draw_y_labels then do
    let l ← g.y_labels[y]?
    let pad_a ← checkedSub g.labelWidth l.chars.length
    let out := out.push_char_rep ' ' pad_a
    let out := out.push_colored_string l
    return out.push_char ' '
  else some out

/-- One cell of a row body: the cell centered in its effective width, then a
light divider unless this is the last column. -/
def Grid.rowCell (g : Grid) (y x : Nat) (out : ColoredString) : Option ColoredString := do
  let col ← g.grid[x]?
  let cell ← col[y]?
  let out ← out.pushCentered (g.usedWidth x) cell
  return if x < g.grid.length - 1 then out.push_char_c '│' g.line_color else out

/-- The light horizontal separator emitted after every row except the last. -/
def Grid.rowSep (g : Grid) (out : ColoredString) : ColoredString :=
  let out :=
    if g.draw_y_labels then
      (out.push_char_rep_c '─' g.line_color (g.labelWidth + 1)).push_char_c '╂' g.line_color
    else out.push_char_c '┠' g.line_color
  let out := (List.range g.grid.length).foldl (fun o x =>
    let o := o.push_char_rep_c '─' g.line_color (g.usedWidth x + 2)
    if x = g.grid.length - 1 then o.push_char_c '┨' g.line_color
    else o.push_char_c '┼' g.line_color) out
  out.push_char '\n'

/-- One iteration of the row loop: gutter, heavy edge, all cells, heavy edge,
newline, then the separator when more rows follow. -/
def Grid.rowStep (g : Grid) (rows y : Nat) (out : ColoredString) : Option ColoredString := do
  let out ← g.rowGutter y out
  let out := out.push_char_c '┃' g.line_color
  let out ← (List.range g.grid.length).foldlM (fun o x => g.rowCell y x o) out
  let out := out.push_char_c '┃' g.line_color
  let out := out.push_char '\n'
  return if y < rows - 1 then g.rowSep out else out

/-- Stage 2 of `Grid::print`: the row bodies; `self.grid[0]` panics on an
empty grid. -/
def Grid.rowsStage (g : Grid) (out : ColoredString) : Option ColoredString := do
  let col0 ← g.grid[0]?
  (List.range col0.length).foldlM (fun o y => g.rowStep col0.length y o) out

/-- Stage 3 of `Grid::print`: the bottom border. -/
def Grid.bottomStage (g : Grid) (out : ColoredString) : ColoredString :=
  let out :=
    if g.draw_y_labels then
      (out.push_char_rep_c '─' g.line_color (g.labelWidth + 1)).push_char_c '┺' g.line_color
    else out.push_char_c '┗' g.line_color
  (List.range g.grid.length).foldl (fun o i =>
    let o := o.push_char_rep_c '━' g.line_color (g.usedWidth i + 2)
    if i = g.grid.length - 1 then o.push_char_c '┛' g.line_color
    else o.push_char_c '┷' g.line_color) out

/-- `Grid::print`: the four-stage render; `none` models a panic. -/
def Grid.print (g : Grid) : Option ColoredString := do
  let out := ColoredString.empty
  let out ← g.topStage out
  let out ← g.rowsStage out
  return g.bottomStage out

/-- Stage 4: the full write stream sent to the sink, appended after whatever
the sink already holds. `none` when the render panics before flushing. -/
def Grid.printTo (g : Grid) (sink : List (Char × Option Color)) :
    Option (List (Char × Option Color)) :=
  (g.print).map (fun out => sink ++ out.writes)

/-! ### Helper lemmas -/

lemma checkedSub_of_le {a b : Nat} (h : b ≤ a) : checkedSub a b = some (a - b) := by
  simp [checkedSub, h]

lemma foldlM_eq_none {α β : Type} (f : β → α → Option β) (l : List α) (a : α)
    (ha : a ∈ l) (hf : ∀ b, f b a = none) (b : β) : List.foldlM f b l = none := by
  induction l generalizing b with
  | nil => cases ha
  | cons hd tl ih =>
    rcases List.mem_cons.mp ha with h1 | h2
    · subst h1
      simp [List.foldlM_cons, hf]
    · cases hfb : f b hd with
      | none => simp [List.foldlM_cons, hfb]
      | some b2 => simp [List.foldlM_cons, hfb, ih h2]

lemma pushCentered_eq (out content : ColoredString) (ew : Nat)
    (h : content.chars.length ≤ ew + 2) :
    ColoredString.pushCentered out ew content =
      some ⟨out.chars
        ++ List.replicate ((ew + 2 - content.chars.length) / 2) (ColoredChar.new ' ')
        ++ content.chars
        ++ List.replicate ((ew + 2 - content.chars.length)
            - (ew + 2 - content.chars.length) / 2) (ColoredChar.new ' ')⟩ := by
  have hsub := checkedSub_of_le h
  have hmod : (ew + 2 - content.chars.length) % 2 = 0
      ∨ (ew + 2 - content.chars.length) % 2 = 1 :=
    Nat.mod_two_eq_zero_or_one _
  have hdm := Nat.div_add_mod (ew + 2 - content.chars.length) 2
  have hpb : (if (ew + 2 - content.chars.length) % 2 = 0
        then (ew + 2 - content.chars.length) / 2
        else (ew + 2 - content.chars.length) / 2 + 1)
      = (ew + 2 - content.chars.length) - (ew + 2 - content.chars.length) / 2 := by
    rcases hmod with h0 | h0 <;> simp [h0] <;> omega
  simp [ColoredString.pushCentered, hsub, hpb, ColoredString.push_char_rep,
    ColoredString.push_colored_string, List.append_assoc]

lemma xLabelCell_none (g : Grid) (i : Nat) (hi : g.x_labels.length ≤ i) (o : ColoredString) :
    g.xLabelCell i o = none := by
  simp [Grid.xLabelCell, List.getElem?_eq_none hi]

lemma topStage_none_of_missing_x_label (g : Grid) (hdx : g.draw_x_labels = true)
    (hlt : g.x_labels.length < g.grid.length) (out : ColoredString) :
    g.topStage out = none := by
  have hfold : ∀ b, List.foldlM (fun o i => g.xLabelCell i o) b (List.range g.grid.length)
      = none :=
    foldlM_eq_none _ _ g.x_labels.length (List.mem_range.mpr hlt)
      (xLabelCell_none g g.x_labels.length (le_refl _))
  simp [Grid.topStage, hdx, hfold]

lemma rowCell_none (g : Grid) (y x : Nat) (colx : List ColoredString)
    (hx : g.grid[x]? = some colx) (hy : colx.length ≤ y) (o : ColoredString) :
    g.rowCell y x o = none := by
  simp [Grid.rowCell, hx, List.getElem?_eq_none hy]

lemma rowStep_none_of_cell (g : Grid) (rows y x : Nat) (colx : List ColoredString)
    (hxlen : x < g.grid.length) (hx : g.grid[x]? = some colx) (hy : colx.length ≤ y)
    (o : ColoredString) : g.rowStep rows y o = none := by
  have hinner : ∀ b, List.foldlM (fun o x => g.rowCell y x o) b (List.range g.grid.length)
      = none :=
    foldlM_eq_none _ _ x (List.mem_range.mpr hxlen) (rowCell_none g y x colx hx hy)
  cases hg : g.rowGutter y o with
  | none => simp [Grid.rowStep, hg]
  | some o2 => simp [Grid.rowStep, hg, hinner]

lemma rowStep_none_of_gutter (g : Grid) (rows y : Nat) (hdy : g.draw_y_labels = true)
    (hy : g.y_labels.length ≤ y) (o : ColoredString) : g.rowStep rows y o = none := by
  simp [Grid.rowStep, Grid.rowGutter, hdy, List.getElem?_eq_none hy]

lemma rowsStage_none (g : Grid) (col0 : List ColoredString) (h0 : g.grid[0]? = some col0)
    (y : Nat) (hylt : y < col0.length)
    (hstep : ∀ o, g.rowStep col0.length y o = none) (out : ColoredString) :
    g.rowsStage out = none := by
  simp only [Grid.rowsStage, h0, Option.some_bind, Option.bind_eq_bind]
  exact foldlM_eq_none _ _ y (List.mem_range.mpr hylt) hstep out

lemma print_none_of_rows (g : Grid) (hrows : ∀ out, g.rowsStage out = none) :
    g.print = none := by
  cases ht : g.topStage ColoredString.empty with
  | none => simp [Grid.print, ht]
  | some o => simp [Grid.print, ht, hrows]

lemma le_foldl_max_init (l : List Nat) (b : Nat) : b ≤ List.foldl max b l := by
  induction l generalizing b with
  | nil => exact le_refl b
  | cons hd tl ih => exact le_trans (le_max_left b hd) (ih (max b hd))

lemma le_foldl_max_of_mem {l : List Nat} {a : Nat} (h : a ∈ l) (b : Nat) :
    a ≤ List.foldl max b l := by
  induction l generalizing b with
  | nil => cases h
  | cons hd tl ih =>
    rcases List.mem_cons.mp h with h1 | h2
    · subst h1
      exact le_trans (le_max_right b a) (le_foldl_max_init tl _)
    · exact ih h2 _

lemma foldl_if_max_map {α : Type} (f : α → Nat) (l : List α) (b : Nat) :
    List.foldl (fun w c => if f c > w then f c else w) b l
      = List.foldl max b (l.map f) := by
  induction l generalizing b with
  | nil => rfl
  | cons hd tl ih =>
    have h : (if f hd > b then f hd else b) = max b (f hd) := by
      rw [Nat.max_def]
      split_ifs <;> omega

    simp [List.foldl_cons, h, ih]

lemma foldl_if_eq_foldl_max (l : List Nat) (b : Nat) :
    List.foldl (fun w n => if n > w then n else w) b l = List.foldl max b l := by
  induction l generalizing b with
  | nil => rfl
  | cons hd tl ih =>
    have h : (if hd > b then hd else b) = max b hd := by
      rw [Nat.max_def]
      split_ifs <;> omega
    simp [List.foldl_cons, h, ih]

lemma columnWidths_getElem? (g : Grid) (i : Nat) (col : List ColoredString)
    (hi : g.grid[i]? = some col) :
    g.columnWidths[i]? = some (g.columnWidth i col) := by
  rw [Grid.columnWidths, List.getElem?_map, List.getElem?_enum, hi]
  rfl

lemma usedWidth_dynamic (g : Grid) (i : Nat) (col : List ColoredString)
    (hst : g.static_column_width = false) (hi : g.grid[i]? = some col) :
    g.usedWidth i = g.columnWidth i col := by
  rw [Grid.usedWidth, List.getD_eq_getElem?_getD, columnWidths_getElem? g i col hi]
  simp [hst]

lemma columnWidth_eq (g : Grid) (i : Nat) (col : List ColoredString) :
    g.columnWidth i col =
      if g.draw_x_labels = true ∧ i < g.x_labels.length then
        max (List.foldl max 0 (col.map (fun c => c.chars.length)))
          ((g.x_labels.getD i ColoredString.empty).chars.length)
      else List.foldl max 0 (col.map (fun c => c.chars.length)) := by
  rw [Grid.columnWidth]
  cases hx : g.x_labels[i]? with
  | none =>
    have hni : ¬ i < g.x_labels.length := by
      have := List.getElem?_eq_none_iff.mp hx
      omega
    simp [hni, foldl_if_max_map]
  | some l =>
    obtain ⟨hilt, hgel⟩ := List.getElem?_eq_some.mp hx
    have hgd : g.x_labels.getD i ColoredString.empty = l := by
      rw [List.getD_eq_getElem?_getD, hx]
      rfl
    have hmax : ∀ b : Nat, (if l.chars.length > b then l.chars.length else b)
        = max b l.chars.length := by
      intro b
      rw [Nat.max_def]
      split_ifs <;> omega
    cases hdx : g.draw_x_labels with
    | false => simp [hdx, hilt, foldl_if_max_map]
    | true => simp [hdx, hilt, hgd, hgel, foldl_if_max_map, hmax]

lemma rangeOne : List.range 1 = [0] := by decide

lemma one_cw (cell : ColoredString) (st : Bool) (xl yl : List ColoredString)
    (lc xc yc cc : Option Color) :
    (Grid.mk xl yl st false false [[cell]] lc xc yc cc).columnWidths
      = [cell.chars.length] := by
  have hbase : (if cell.chars.length > 0 then cell.chars.length else 0)
      = cell.chars.length := by
    split <;> omega
  cases hxl : xl[0]? with
  | none => simp [Grid.columnWidths, Grid.columnWidth, List.enum_cons, hxl, hbase]
  | some l => simp [Grid.columnWidths, Grid.columnWidth, List.enum_cons, hxl, hbase]

lemma one_uw (cell : ColoredString) (st : Bool) (xl yl : List ColoredString)
    (lc xc yc cc : Option Color) :
    (Grid.mk xl yl st false false [[cell]] lc xc yc cc).usedWidth 0
      = cell.chars.length := by
  have hcw := one_cw cell st xl yl lc xc yc cc
  have hlw : (Grid.mk xl yl st false false [[cell]] lc xc yc cc).largestWidth
      = cell.chars.length := by
    rw [Grid.largestWidth, hcw]
    show (if cell.chars.length > 0 then cell.chars.length else 0) = cell.chars.length
    split <;> omega
  rw [Grid.usedWidth]
  cases st with
  | false => simp [hcw]
  | true => simp [hlw]

lemma one_pc (cell : ColoredString) (out : ColoredString) :
    ColoredString.pushCentered out cell.chars.length cell
      = some ⟨out.chars ++ [ColoredChar.new ' '] ++ cell.chars ++ [ColoredChar.new ' ']⟩ := by
  have h := pushCentered_eq out cell cell.chars.length (Nat.le_add_right _ _)
  have h2 : cell.chars.length + 2 - cell.chars.length = 2 := by omega
  rw [h2] at h
  norm_num at h
  simpa using h

lemma one_top (cell : ColoredString) (st : Bool) (xl yl : List ColoredString)
    (lc xc yc cc : Option Color) :
    (Grid.mk xl yl st false false [[cell]] lc xc yc cc).topStage ColoredString.empty
      = some ⟨[⟨'┏', lc⟩] ++ List.replicate (cell.chars.length + 2) ⟨'━', lc⟩
          ++ [⟨'┓', lc⟩, ⟨'\n', none⟩]⟩ := by
  have huw := one_uw cell st xl yl lc xc yc cc
  simp [Grid.topStage, rangeOne, huw, ColoredString.push_char_c, ColoredString.push_char,
    ColoredString.push_char_rep_c, ColoredString.empty, ColoredChar.new, List.append_assoc]

lemma one_rows (cell : ColoredString) (st : Bool) (xl yl : List ColoredString)
    (lc xc yc cc : Option Color) (out : ColoredString) :
    (Grid.mk xl yl st false false [[cell]] lc xc yc cc).rowsStage out
      = some ⟨out.chars ++ [⟨'┃', lc⟩, ⟨' ', none⟩] ++ cell.chars
          ++ [⟨' ', none⟩, ⟨'┃', lc⟩, ⟨'\n', none⟩]⟩ := by
  have huw := one_uw cell st xl yl lc xc yc cc
  have hpc := one_pc cell
  simp [Grid.rowsStage, Grid.rowStep, Grid.rowGutter, Grid.rowCell, rangeOne, huw, hpc,
    List.foldlM_cons, List.foldlM_nil,
    ColoredString.push_char_c, ColoredString.push_char, ColoredChar.new, List.append_assoc]

lemma one_bot (cell : ColoredString) (st : Bool) (xl yl : List ColoredString)
    (lc xc yc cc : Option Color) (out : ColoredString) :
    (Grid.mk xl yl st false false [[cell]] lc xc yc cc).bottomStage out
      = ⟨out.chars ++ [⟨'┗', lc⟩] ++ List.replicate (cell.chars.length + 2) ⟨'━', lc⟩
          ++ [⟨'┛', lc⟩]⟩ := by
  have huw := one_uw cell st xl yl lc xc yc cc
  simp [Grid.bottomStage, rangeOne, huw, ColoredString.push_char_c,
    ColoredString.push_char_rep_c, ColoredChar.new, List.append_assoc]

lemma one_main (cell : ColoredString) (st : Bool) (xl yl : List ColoredString)
    (lc xc yc cc : Option Color) :
    (Grid.mk xl yl st false false [[cell]] lc xc yc cc).print
      = some ⟨[⟨'┏', lc⟩] ++ List.replicate (cell.chars.length + 2) ⟨'━', lc⟩
          ++ [⟨'┓', lc⟩, ⟨'\n', none⟩, ⟨'┃', lc⟩, ⟨' ', none⟩]
          ++ cell.chars
          ++ [⟨' ', none⟩, ⟨'┃', lc⟩, ⟨'\n', none⟩, ⟨'┗', lc⟩]
          ++ List.replicate (cell.chars.length + 2) ⟨'━', lc⟩
          ++ [⟨'┛', lc⟩]⟩ := by
  have htop := one_top cell st xl yl lc xc yc cc
  have hrows := one_rows cell st xl yl lc xc yc cc
  have hbot := one_bot cell st xl yl lc xc yc cc
  simp [Grid.print, htop, hrows, hbot, List.append_assoc]

lemma filter_nl_replicate (n : Nat) (x : ColoredChar) (hx : ¬ x.char = '\n') :
    (List.replicate n x).filter (fun ch => ch.char = '\n') = [] := by
  refine List.filter_eq_nil_iff.mpr ?_
  intro a ha
  rw [List.eq_of_mem_replicate ha]
  simp [hx]

/-! ### Concrete grids used by counterexamples and witnesses -/

/-- Two columns with different row counts: the second column is longer. -/
def gRagged : Grid :=
  { Grid.new with
    draw_x_labels := false
    draw_y_labels := false
    grid := [[ColoredString.fromStr "a"],
      [ColoredString.fromStr "b", ColoredString.fromStr "c"]] }

/-- Two columns with different row counts: the second column is shorter. -/
def gShort : Grid :=
  { Grid.new with
    draw_x_labels := false
    draw_y_labels := false
    grid := [[ColoredString.fromStr "a", ColoredString.fromStr "c"],
      [ColoredString.fromStr "b"]] }

/-- One column, one row, x-labels still enabled but no labels attached. -/
def gMissX : Grid :=
  { Grid.new with
    draw_y_labels := false
    grid := [[ColoredString.fromStr "a"]] }

/-- Scenario A: two columns, one row, cells "a" and "bb", no labels drawn. -/
def gDyn : Grid :=
  { Grid.new with
    draw_x_labels := false
    draw_y_labels := false
    grid := [[ColoredString.fromStr "a"], [ColoredString.fromStr "bb"]] }

/-- Scenario B: the same grid with `static_column_width = true`. -/
def gStat : Grid := { gDyn with static_column_width := true }

/-- Scenario C: y-labels "x" and "long" on a one-column, two-row grid. -/
def gScenC : Grid :=
  { Grid.new with
    draw_x_labels := false
    y_labels := [ColoredString.fromStr "x", ColoredString.fromStr "long"]
    grid := [[ColoredString.fromStr "a", ColoredString.fromStr "b"]] }

/-! ### Claims -/

/-- C1: for content length `L` and field width `W = effective_width + 2` with
`L ≤ W`, the centering step emits `(W - L) / 2` spaces, the content, then the
remaining spaces; left-pad + right-pad = `W - L`, left-pad ≤ right-pad, the
pads are equal when `W - L` is even, and the right pad gets the extra space
when `W - L` is odd. -/
theorem centering_exact (out content : ColoredString) (ew : Nat)
    (h : content.chars.length ≤ ew + 2) :
    ColoredString.pushCentered out ew content =
      some ⟨out.chars
        ++ List.replicate ((ew + 2 - content.chars.length) / 2) (ColoredChar.new ' ')
        ++ content.chars
        ++ List.replicate ((ew + 2 - content.chars.length)
            - (ew + 2 - content.chars.length) / 2) (ColoredChar.new ' ')⟩
    ∧ (ew + 2 - content.chars.length) / 2
        + ((ew + 2 - content.chars.length) - (ew + 2 - content.chars.length) / 2)
        = (ew + 2) - content.chars.length
    ∧ (ew + 2 - content.chars.length) / 2
        ≤ (ew + 2 - content.chars.length) - (ew + 2 - content.chars.length) / 2
    ∧ ((ew + 2 - content.chars.length) % 2 = 0 →
        (ew + 2 - content.chars.length) - (ew + 2 - content.chars.length) / 2
          = (ew + 2 - content.chars.length) / 2)
    ∧ ((ew + 2 - content.chars.length) % 2 = 1 →
        (ew + 2 - content.chars.length) - (ew + 2 - content.chars.length) / 2
          = (ew + 2 - content.chars.length) / 2 + 1) := by
  refine ⟨pushCentered_eq out content ew h, ?_, ?_, ?_, ?_⟩ <;> omega

theorem centering_exact_witness :
    (ColoredString.fromStr "abc").chars.length ≤ 4 + 2
    ∧ ColoredString.pushCentered ColoredString.empty 4 (ColoredString.fromStr "abc")
      = some ⟨ColoredString.empty.chars
          ++ List.replicate ((4 + 2 - (ColoredString.fromStr "abc").chars.length) / 2)
              (ColoredChar.new ' ')
          ++ (ColoredString.fromStr "abc").chars
          ++ List.replicate ((4 + 2 - (ColoredString.fromStr "abc").chars.length)
              - (4 + 2 - (ColoredString.fromStr "abc").chars.length) / 2)
              (ColoredChar.new ' ')⟩ :=
  ⟨by decide,
    (centering_exact ColoredString.empty (ColoredString.fromStr "abc") 4 (by decide)).1⟩

/-- C2: with dynamic column widths the effective width of column `i` is the
maximum cell length of the column, additionally including the x-label length
exactly when x-labels are drawn and a label exists at index `i`; consequently
no cell or label of that column is wider than its field. -/
theorem dynamic_column_width_correct (g : Grid) (i : Nat) (col : List ColoredString)
    (hst : g.static_column_width = false) (hi : g.grid[i]? = some col) :
    (g.usedWidth i =
      if g.draw_x_labels = true ∧ i < g.x_labels.length then
        max (List.foldl max 0 (col.map (fun c => c.chars.length)))
          ((g.x_labels.getD i ColoredString.empty).chars.length)
      else List.foldl max 0 (col.map (fun c => c.chars.length)))
    ∧ (∀ cell ∈ col, cell.chars.length ≤ g.usedWidth i)
    ∧ (g.draw_x_labels = true → ∀ l, g.x_labels[i]? = some l →
        l.chars.length ≤ g.usedWidth i) := by
  have hu : g.usedWidth i = g.columnWidth i col := usedWidth_dynamic g i col hst hi
  refine ⟨by rw [hu, columnWidth_eq], ?_, ?_⟩
  · intro cell hc
    rw [hu, columnWidth_eq]
    have hbase : cell.chars.length ≤ List.foldl max 0 (col.map (fun c => c.chars.length)) :=
      le_foldl_max_of_mem (List.mem_map_of_mem (fun c => c.chars.length) hc) 0
    split_ifs with hif
    · exact le_trans hbase (le_max_left _ _)
    · exact hbase
  · intro hdx l hl
    rw [hu, columnWidth_eq]
    obtain ⟨hilt, hgel⟩ := List.getElem?_eq_some.mp hl
    have hgd : g.x_labels.getD i ColoredString.empty = l := by
      rw [List.getD_eq_getElem?_getD, hl]
      rfl
    rw [if_pos ⟨hdx, hilt⟩, hgd]
    exact le_max_right _ _

theorem dynamic_column_width_correct_witness : gDyn.usedWidth 1 = 2 := by
  have h := (dynamic_column_width_correct gDyn 1 [ColoredString.fromStr "bb"] rfl rfl).1
  rw [h]
  decide

/-- C3: with `static_column_width = true` the effective width used at every
drawing site, for every column index, equals `largest_width`, the global
maximum over the per-column computed widths. -/
theorem static_column_width_uniform (g : Grid) (hst : g.static_column_width = true) (i : Nat) :
    g.usedWidth i = g.largestWidth
    ∧ g.largestWidth = List.foldl max 0 g.columnWidths := by
  constructor
  · simp [Grid.usedWidth, hst]
  · rw [Grid.largestWidth, foldl_if_eq_foldl_max]

theorem static_column_width_uniform_witness :
    gStat.usedWidth 0 = gStat.largestWidth :=
  (static_column_width_uniform gStat rfl 0).1

/-- C4 counterexample: a grid whose two columns have 1 and 2 rows renders
successfully (no fatal rejection) and the extra cell `"c"` is silently
absent from the output. -/
theorem ragged_longer_column_renders :
    (gRagged.grid[0]?).map List.length = some 1
    ∧ (gRagged.grid[1]?).map List.length = some 2
    ∧ gRagged.print.isSome = true
    ∧ gRagged.print.map (fun o => o.chars.map (fun ch => ch.char))
        = some ['┏', '━', '━', '━', '┯', '━', '━', '━', '┓', '\n',
            '┃', ' ', 'a', ' ', '│', ' ', 'b', ' ', '┃', '\n',
            '┗', '━', '━', '━', '┷', '━', '━', '━', '┛'] := by
  refine ⟨rfl, rfl, rfl, rfl⟩

/-- C4 (amended): rendering fails fatally (out-of-bounds, modelled as `none`)
whenever some column has fewer rows than the first column; a column with more
rows than the first is instead silently truncated to the first column's row
count. -/
theorem ragged_shorter_column_fatal (g : Grid) (x : Nat) (colx col0 : List ColoredString)
    (hx : g.grid[x]? = some colx) (h0 : g.grid[0]? = some col0)
    (hshort : colx.length < col0.length) : g.print = none := by
  have hxlen : x < g.grid.length := (List.getElem?_eq_some.mp hx).1
  apply print_none_of_rows
  intro out
  apply rowsStage_none g col0 h0 (col0.length - 1) (by omega)
  intro o
  exact rowStep_none_of_cell g col0.length (col0.length - 1) x colx hxlen hx (by omega) o

theorem ragged_shorter_column_fatal_witness : gShort.print = none :=
  ragged_shorter_column_fatal gShort 1 [ColoredString.fromStr "b"]
    [ColoredString.fromStr "a", ColoredString.fromStr "c"] rfl rfl (by decide)

/-- C5: with x-labels drawn and fewer x-labels than columns, or y-labels
drawn and fewer y-labels than rows, the render hits the missing index and
fails fatally (`none`); the mismatch is never silently tolerated. -/
theorem missing_labels_fatal (g : Grid)
    (h : (g.draw_x_labels = true ∧ g.x_labels.length < g.grid.length)
       ∨ (g.draw_y_labels = true ∧ ∃ col0, g.grid[0]? = some col0
            ∧ g.y_labels.length < col0.length)) :
    g.print = none := by
  rcases h with ⟨hdx, hlt⟩ | ⟨hdy, col0, h0, hlt⟩
  · have ht := topStage_none_of_missing_x_label g hdx hlt ColoredString.empty
    simp [Grid.print, ht]
  · apply print_none_of_rows
    intro out
    exact rowsStage_none g col0 h0 g.y_labels.length hlt
      (fun o => rowStep_none_of_gutter g col0.length g.y_labels.length hdy (le_refl _) o) out

theorem missing_labels_fatal_witness : gMissX.print = none :=
  missing_labels_fatal gMissX (Or.inl ⟨rfl, by decide⟩)

/-- C6 counterexample: in Scenario C the first row's gutter is three padding
spaces, then "x", then one space, then the divider — the padding spaces
precede the label text, so the label is not right-padded with spaces after
the text. -/
theorem y_label_gutter_claim_false :
    gScenC.print.map (fun o => ((o.chars.map (fun ch => ch.char)).drop 11).take 6)
      = some [' ', ' ', ' ', 'x', ' ', '┃']
    ∧ ¬ gScenC.print.map (fun o => ((o.chars.map (fun ch => ch.char)).drop 11).take 6)
      = some ['x', ' ', ' ', ' ', ' ', '┃'] := by
  refine ⟨rfl, by decide⟩

/-- C6 (amended): `label_width` is 4 for labels "x" (length 1) and "long"
(length 4), and each row's gutter emits the y-label right-aligned:
`label_width − length` padding spaces before the label text, then the label,
then a single space (the vertical divider follows); for the scenario's first
row that is three spaces, "x", one space. -/
theorem y_label_gutter_right_aligned :
    gScenC.labelWidth = 4
    ∧ (∀ (g : Grid) (y : Nat) (l out : ColoredString),
        g.draw_y_labels = true → g.y_labels[y]? = some l →
        l.chars.length ≤ g.labelWidth →
        g.rowGutter y out = some ⟨out.chars
          ++ List.replicate (g.labelWidth - l.chars.length) (ColoredChar.new ' ')
          ++ l.chars ++ [ColoredChar.new ' ']⟩) := by
  refine ⟨rfl, ?_⟩
  intro g y l out hdy hl hlen
  simp [Grid.rowGutter, hdy, hl, checkedSub_of_le hlen, ColoredString.push_char_rep,
    ColoredString.push_colored_string, ColoredString.push_char, List.append_assoc]

theorem y_label_gutter_right_aligned_witness :
    gScenC.rowGutter 0 ColoredString.empty = some ⟨ColoredString.empty.chars
      ++ List.replicate (gScenC.labelWidth - (ColoredString.fromStr "x").chars.length)
          (ColoredChar.new ' ')
      ++ (ColoredString.fromStr "x").chars ++ [ColoredChar.new ' ']⟩ :=
  y_label_gutter_right_aligned.2 gScenC 0 (ColoredString.fromStr "x") ColoredString.empty
    rfl rfl (by decide)

/-- C7: the fill-unset-colors operation keeps every character, assigns the
default exactly to uncolored characters, and leaves colored characters
unchanged; hence an x-label default color set before attaching labels is
applied at attach time, while one set after attaching does not retroactively
color them. -/
theorem apply_default_color_spec :
    (∀ (ch : ColoredChar) (d : Option Color),
      (ch.apply_default_color d).char = ch.char
      ∧ (ch.color = none → (ch.apply_default_color d).color = d)
      ∧ (∀ c0 : Color, ch.color = some c0 → ch.apply_default_color d = ch))
    ∧ (∀ (s : ColoredString) (d : Option Color),
        (s.apply_default_color d).chars = s.chars.map (fun ch => ch.apply_default_color d))
    ∧ (∀ (g : Grid) (labels : List ColoredString) (c : Color),
        ((g.set_x_label_color c).set_x_labels labels).x_labels
          = labels.map (fun s => s.apply_default_color (some c))
        ∧ ((g.set_x_labels labels).set_x_label_color c).x_labels
          = labels.map (fun s => s.apply_default_color g.x_label_color)) := by
  refine ⟨?_, fun s d => rfl, fun g labels c => ⟨rfl, rfl⟩⟩
  intro ch d
  refine ⟨?_, ?_, ?_⟩
  · cases hc : ch.color <;> simp [ColoredChar.apply_default_color, hc]
  · intro hc
    simp [ColoredChar.apply_default_color, hc]
  · intro c0 hc
    simp [ColoredChar.apply_default_color, hc]

theorem apply_default_color_spec_witness :
    (ColoredChar.mk 'a' none).color = none
    ∧ ((ColoredChar.mk 'a' none).apply_default_color (some Color.red)).color
        = some Color.red :=
  ⟨rfl, (apply_default_color_spec.1 (ColoredChar.mk 'a' none) (some Color.red)).2.1 rfl⟩

/-- C8: rendering is deterministic: two render calls on the same `Grid` value
with the same initial sink state produce identical write streams. -/
theorem render_deterministic (g : Grid) (s₁ s₂ : List (Char × Option Color))
    (h : s₁ = s₂) : g.printTo s₁ = g.printTo s₂ := by
  rw [h]

theorem render_deterministic_witness :
    Grid.new.printTo [] = Grid.new.printTo [] :=
  render_deterministic Grid.new [] [] rfl

/-- C10: `Grid::new` enables both label toggles, has empty labels, dynamic
column widths, all four default colors unset, and an empty cell array; so
attaching a non-empty cell array and rendering without disabling the toggles
or attaching labels hits the missing-x-label fatal condition. -/
theorem grid_new_defaults :
    Grid.new.draw_x_labels = true ∧ Grid.new.draw_y_labels = true
    ∧ Grid.new.x_labels = [] ∧ Grid.new.y_labels = []
    ∧ Grid.new.static_column_width = false ∧ Grid.new.grid = []
    ∧ Grid.new.line_color = none ∧ Grid.new.x_label_color = none
    ∧ Grid.new.y_label_color = none ∧ Grid.new.cell_color = none
    ∧ ∀ cells : List (List ColoredString), cells ≠ [] →
        (Grid.new.set_grid cells).print = none := by
  refine ⟨rfl, rfl, rfl, rfl, rfl, rfl, rfl, rfl, rfl, rfl, ?_⟩
  intro cells hne
  have hlt : (Grid.new.set_grid cells).x_labels.length
      < (Grid.new.set_grid cells).grid.length := by
    have h1 : (Grid.new.set_grid cells).x_labels.length = 0 := rfl
    have h2 : (Grid.new.set_grid cells).grid.length = cells.length := by
      simp [Grid.set_grid, Grid.new]
    rw [h1, h2]
    exact List.length_pos.mpr hne
  have ht := topStage_none_of_missing_x_label (Grid.new.set_grid cells) rfl hlt
    ColoredString.empty
  simp [Grid.print, ht]

theorem grid_new_defaults_witness :
    (Grid.new.set_grid [[ColoredString.fromStr "a"]]).print = none :=
  grid_new_defaults.2.2.2.2.2.2.2.2.2.2 [[ColoredString.fromStr "a"]] (by decide)

/-- C9: a 1-column, 1-row grid with both label toggles off renders as exactly
three lines — a heavy top border `┏━…━┓`, one row body `┃ cell ┃`, and a
heavy bottom border `┗━…━┛` — with no label gutter, no label row, and no row
separators; when the cell contains no newline the whole output contains
exactly two `'\n'` characters. -/
theorem one_by_one_three_lines (cell : ColoredString) (st : Bool)
    (xl yl : List ColoredString) (lc xc yc cc : Option Color) :
    (Grid.mk xl yl st false false [[cell]] lc xc yc cc).print
      = some ⟨[⟨'┏', lc⟩] ++ List.replicate (cell.chars.length + 2) ⟨'━', lc⟩
          ++ [⟨'┓', lc⟩, ⟨'\n', none⟩, ⟨'┃', lc⟩, ⟨' ', none⟩]
          ++ cell.chars
          ++ [⟨' ', none⟩, ⟨'┃', lc⟩, ⟨'\n', none⟩, ⟨'┗', lc⟩]
          ++ List.replicate (cell.chars.length + 2) ⟨'━', lc⟩
          ++ [⟨'┛', lc⟩]⟩
    ∧ (cell.chars.filter (fun ch => ch.char = '\n') = [] →
        (Grid.mk xl yl st false false [[cell]] lc xc yc cc).print.map
          (fun o => (o.chars.filter (fun ch => ch.char = '\n')).length) = some 2) := by
  have hmain := one_main cell st xl yl lc xc yc cc
  refine ⟨hmain, ?_⟩
  intro hnl
  rw [hmain]
  have hrep := filter_nl_replicate (cell.chars.length + 2) (⟨'━', lc⟩ : ColoredChar)
    (show ¬ ('━' : Char) = '\n' from by decide)
  simp [List.filter_append, List.filter_cons, hnl, hrep]

theorem one_by_one_three_lines_witness :
    (Grid.mk [] [] false false false [[ColoredString.fromStr "hi"]]
        none none none none).print.map
      (fun o => (o.chars.filter (fun ch => ch.char = '\n')).length) = some 2 :=
  (one_by_one_three_lines (ColoredString.fromStr "hi") false [] [] none none none none).2
    (by decide)

end GridPrint
